import Mathlib

/-!
Shallow embedding of the AR-Fluid-Vision SPH core
(src/fluid_physics/sph_simulator.py, src/utils/helpers.py, config.py),
with machine-checked verification of the frozen specification claims.

Real-valued quantities of the Python code (numpy float32 / Python float)
are modelled by exact real numbers; the spatial hash grid of helpers.py
is modelled over the rationals so that its operations stay executable.
-/

namespace ARFluid

/-- A 3-component vector, modelling the length-3 numpy arrays used for
positions, velocities and forces. -/
@[ext]
structure Vec3 where
  x : ℝ
  y : ℝ
  z : ℝ

noncomputable instance : Add Vec3 := ⟨fun a b => ⟨a.x + b.x, a.y + b.y, a.z + b.z⟩⟩

noncomputable instance : Sub Vec3 := ⟨fun a b => ⟨a.x - b.x, a.y - b.y, a.z - b.z⟩⟩

noncomputable instance : Neg Vec3 := ⟨fun a => ⟨-a.x, -a.y, -a.z⟩⟩

noncomputable instance : Zero Vec3 := ⟨⟨0, 0, 0⟩⟩

noncomputable instance : SMul ℝ Vec3 := ⟨fun c v => ⟨c * v.x, c * v.y, c * v.z⟩⟩

/-- Componentwise division of a vector by a scalar (numpy r_vec / r). -/
noncomputable def Vec3.sdiv (v : Vec3) (r : ℝ) : Vec3 := ⟨v.x / r, v.y / r, v.z / r⟩

/-- Dot product (np.dot). -/
noncomputable def Vec3.dot (a b : Vec3) : ℝ := a.x * b.x + a.y * b.y + a.z * b.z

/-- Euclidean norm (np.linalg.norm). -/
noncomputable def Vec3.norm (v : Vec3) : ℝ := Real.sqrt (Vec3.dot v v)

/-- The module-level FLUID_CONFIG dictionary of config.py. -/
structure FluidConfig where
  num_particles : ℕ
  particle_mass : ℝ
  rest_density : ℝ
  gas_constant : ℝ
  viscosity : ℝ
  gravity : Vec3
  smoothing_radius : ℝ
  time_step : ℝ
  damping : ℝ

/-- The module-level BOUNDARY_CONFIG dictionary of config.py. -/
structure BoundaryConfig where
  min_bounds : Vec3
  max_bounds : Vec3
  restitution : ℝ

/-- FLUID_CONFIG literal from config.py. -/
noncomputable def FLUID_CONFIG : FluidConfig :=
  { num_particles := 500
    particle_mass := 0.02
    rest_density := 1000
    gas_constant := 2000
    viscosity := 0.5
    gravity := ⟨0, -9.8, 0⟩
    smoothing_radius := 0.05
    time_step := 0.016
    damping := 0.95 }

/-- BOUNDARY_CONFIG literal from config.py. -/
noncomputable def BOUNDARY_CONFIG : BoundaryConfig :=
  { min_bounds := ⟨-1, -1, -1⟩
    max_bounds := ⟨1, 1, 1⟩
    restitution := 0.3 }

/-- One fluid particle (class Particle). -/
structure Particle where
  position : Vec3
  velocity : Vec3
  force : Vec3
  density : ℝ
  pressure : ℝ
  mass : ℝ

/-- Particle.__init__: velocity and force start at zero, density and
pressure at 0.0, and the mass is read from the module-level global
FLUID_CONFIG, not from any per-simulator configuration. -/
noncomputable def Particle.init (position : Vec3) : Particle :=
  { position := position
    velocity := ⟨0, 0, 0⟩
    force := ⟨0, 0, 0⟩
    density := 0
    pressure := 0
    mass := FLUID_CONFIG.particle_mass }

/-- The SPHFluidSimulator state: the configuration values copied to
attributes by __init__, plus the particle list.  The kernel constants
poly6_constant, spiky_constant and viscosity_constant are pure functions
of the immutable smoothing radius, precomputed in __init__ only for
speed; they appear below as functions of h. -/
structure SPHFluidSimulator where
  particles : List Particle
  num_particles : ℕ
  rest_density : ℝ
  gas_constant : ℝ
  viscosity : ℝ
  gravity : Vec3
  smoothing_radius : ℝ
  dt : ℝ
  damping : ℝ
  boundary_config : BoundaryConfig

/-- Poly6 kernel (SPHFluidSimulator._poly6_kernel): zero for r2 at or
beyond h*h, otherwise poly6_constant times (h*h - r2) cubed, with
poly6_constant = 315 / (64 pi h^9). -/
noncomputable def poly6Kernel (h r2 : ℝ) : ℝ :=
  if h * h ≤ r2 then 0
  else 315 / (64 * Real.pi * h ^ 9) * ((h * h - r2) * (h * h - r2) * (h * h - r2))

/-- Spiky kernel gradient (SPHFluidSimulator._spiky_gradient): the zero
vector when r is at or beyond h or below the 1e-6 epsilon guard,
otherwise spiky_constant times (h - r) squared times r_vec / r, with
spiky_constant = -45 / (pi h^6). -/
noncomputable def spikyGradient (h : ℝ) (rvec : Vec3) (r : ℝ) : Vec3 :=
  if h ≤ r ∨ r < 1 / 1000000 then ⟨0, 0, 0⟩
  else (-45 / (Real.pi * h ^ 6) * ((h - r) * (h - r))) • Vec3.sdiv rvec r

/-- Viscosity kernel Laplacian (SPHFluidSimulator._viscosity_laplacian). -/
noncomputable def viscosityLaplacian (h r : ℝ) : ℝ :=
  if h ≤ r then 0 else 45 / (Real.pi * h ^ 6) * (h - r)

/-- One neighbor term of the density sum in
SPHFluidSimulator._compute_density_pressure: when the squared distance
is below h*h the code adds particle.mass * poly6(r2), using the mass of
the particle whose density is being accumulated. -/
noncomputable def densityContribution (h mass : ℝ) (pos qpos : Vec3) : ℝ :=
  if Vec3.dot (pos - qpos) (pos - qpos) < h * h then
    mass * poly6Kernel h (Vec3.dot (pos - qpos) (pos - qpos))
  else 0

/-- SPHFluidSimulator._compute_density_pressure: for every particle, sum
the density contributions over all particles (the particle itself
included), then set pressure by the equation of state
gas_constant * (density - rest_density). -/
noncomputable def computeDensityPressure (sim : SPHFluidSimulator) : SPHFluidSimulator :=
  { sim with particles := sim.particles.map (fun p =>
      let density := (sim.particles.map (fun q =>
        densityContribution sim.smoothing_radius p.mass p.position q.position)).sum
      { p with density := density
               pressure := sim.gas_constant * (density - sim.rest_density) }) }

/-- The pressure-force term the code accumulates for one neighbor in
SPHFluidSimulator._compute_forces: inside the r < h test it adds
particle.mass * (particle.pressure + neighbor.pressure) / (2 neighbor.density)
times the spiky gradient, with no negation in front (the spiky constant
inside the gradient is itself negative). -/
noncomputable def pressureContribution (h : ℝ) (p q : Particle) : Vec3 :=
  if Vec3.norm (p.position - q.position) < h then
    (p.mass * ((p.pressure + q.pressure) / (2 * q.density))) •
      spikyGradient h (p.position - q.position) (Vec3.norm (p.position - q.position))
  else ⟨0, 0, 0⟩

/-- The pressure-force term exactly as the specification document words
it in section 4.4: pressureForce += -mass(q) * (pressure(p) + pressure(q))
/ (2 density(q)) * pressure_gradient(r_vec, r).  This definition follows
the words of the spec, for comparison against the code embedding above. -/
noncomputable def specPressureContribution (h : ℝ) (p q : Particle) : Vec3 :=
  (-q.mass * ((p.pressure + q.pressure) / (2 * q.density))) •
    spikyGradient h (p.position - q.position) (Vec3.norm (p.position - q.position))

/-- The viscosity-force term for one neighbor in
SPHFluidSimulator._compute_forces. -/
noncomputable def viscosityContribution (h visc : ℝ) (p q : Particle) : Vec3 :=
  if Vec3.norm (p.position - q.position) < h then
    (visc * p.mass * viscosityLaplacian h (Vec3.norm (p.position - q.position))) •
      Vec3.sdiv (q.velocity - p.velocity) q.density
  else ⟨0, 0, 0⟩

/-- SPHFluidSimulator._compute_forces: for each particle (identified by
position in the list, mirroring Python object identity in the
particle-is-neighbor test), sum pressure and viscosity contributions
over all other particles and add gravity scaled by the particle
density. -/
noncomputable def computeForces (sim : SPHFluidSimulator) : SPHFluidSimulator :=
  { sim with particles := sim.particles.enum.map (fun ip =>
      let pressureForce := (sim.particles.enum.map (fun jq =>
        if ip.1 = jq.1 then (⟨0, 0, 0⟩ : Vec3)
        else pressureContribution sim.smoothing_radius ip.2 jq.2)).sum
      let viscosityForce := (sim.particles.enum.map (fun jq =>
        if ip.1 = jq.1 then (⟨0, 0, 0⟩ : Vec3)
        else viscosityContribution sim.smoothing_radius sim.viscosity ip.2 jq.2)).sum
      { ip.2 with force := pressureForce + viscosityForce + ip.2.density • sim.gravity }) }

/-- One axis of SPHFluidSimulator._handle_boundaries: clamp the position
into the axis interval and reflect the velocity scaled by minus the
restitution when a bound was crossed. -/
noncomputable def clampAxis (minb maxb rest pos vel : ℝ) : ℝ × ℝ :=
  if pos < minb then (minb, vel * -rest)
  else if maxb < pos then (maxb, vel * -rest)
  else (pos, vel)

/-- SPHFluidSimulator._handle_boundaries applied to one particle. -/
noncomputable def handleBoundaries (bc : BoundaryConfig) (p : Particle) : Particle :=
  let rx := clampAxis bc.min_bounds.x bc.max_bounds.x bc.restitution p.position.x p.velocity.x
  let ry := clampAxis bc.min_bounds.y bc.max_bounds.y bc.restitution p.position.y p.velocity.y
  let rz := clampAxis bc.min_bounds.z bc.max_bounds.z bc.restitution p.position.z p.velocity.z
  { p with position := ⟨rx.1, ry.1, rz.1⟩, velocity := ⟨rx.2, ry.2, rz.2⟩ }

/-- SPHFluidSimulator._integrate: semi-implicit Euler.  Velocity gains
acceleration force/density times dt, is damped, the position advances by
the damped velocity times dt, and boundaries are handled. -/
noncomputable def integrate (sim : SPHFluidSimulator) : SPHFluidSimulator :=
  { sim with particles := sim.particles.map (fun p =>
      let v1 := sim.damping • (p.velocity + sim.dt • Vec3.sdiv p.force p.density)
      handleBoundaries sim.boundary_config
        { p with velocity := v1, position := p.position + sim.dt • v1 }) }

/-- The per-particle body of SPHFluidSimulator.add_external_force: when
the particle lies strictly within the radius, the force scaled by the
linear falloff 1 - distance/radius and by the stored time step dt is
added to the velocity, immediately. -/
noncomputable def applyExternalForce (dt : ℝ) (position : Vec3) (radius : ℝ)
    (force : Vec3) (p : Particle) : Particle :=
  if Vec3.norm (p.position - position) < radius then
    { p with velocity := p.velocity +
        ((1 - Vec3.norm (p.position - position) / radius) * dt) • force }
  else p

/-- SPHFluidSimulator.add_external_force: mutates the velocities of the
in-range particles during the call itself; nothing is queued. -/
noncomputable def addExternalForce (sim : SPHFluidSimulator) (position : Vec3)
    (radius : ℝ) (force : Vec3) : SPHFluidSimulator :=
  { sim with particles := sim.particles.map (applyExternalForce sim.dt position radius force) }

/-- SPHFluidSimulator.update: an explicit dt argument overwrites the
stored time step before the three-stage pipeline runs. -/
noncomputable def update (sim : SPHFluidSimulator) (dtArg : Option ℝ) : SPHFluidSimulator :=
  integrate (computeForces (computeDensityPressure
    (match dtArg with
     | some d => { sim with dt := d }
     | none => sim)))

/-- The value int(np.ceil(n ** (1/3))) computed by
SPHFluidSimulator._initialize_particles, modelled exactly as the least d
with n at most d cubed.  The float64 cube root may round so that the
Python value exceeds this least d by one at perfect cubes; either value
satisfies n at most d cubed, which is all the particle creation loop
depends on for the number of particles created. -/
def natCeilCubeRoot (n : ℕ) : ℕ :=
  (((List.range (n + 1)).find? (fun d => decide (n ≤ d ^ 3))).getD n)

/-- The lexicographic (i, j, k) grid of particle positions traversed by
the triple loop of _initialize_particles, with
x = (i - d/2) spacing, y = (j - d/2) spacing + 0.5, z = (k - d/2) spacing. -/
noncomputable def gridPositions (d : ℕ) (spacing : ℝ) : List Vec3 :=
  (List.range d).flatMap (fun i =>
    (List.range d).flatMap (fun j =>
      (List.range d).map (fun k =>
        ⟨((i : ℝ) - (d : ℝ) / 2) * spacing,
         ((j : ℝ) - (d : ℝ) / 2) * spacing + 0.5,
         ((k : ℝ) - (d : ℝ) / 2) * spacing⟩)))

/-- SPHFluidSimulator._initialize_particles: walk the cubic grid in
lexicographic order, breaking out of all three loops as soon as
num_particles particles have been created; equivalently, take the first
num_particles grid positions.  Spacing is 0.8 times the smoothing
radius. -/
noncomputable def initializeParticles (n : ℕ) (h : ℝ) : List Particle :=
  ((gridPositions (natCeilCubeRoot n) (h * 0.8)).take n).map Particle.init

/-- SPHFluidSimulator.__init__ performs no validation of the
configuration: it copies the configuration values to attributes,
computes the kernel constants and creates the particles.  The boundary
configuration is always read from the module-level BOUNDARY_CONFIG
global, modelled here as the bcfg argument. -/
noncomputable def sphInit (cfg : FluidConfig) (bcfg : BoundaryConfig) : SPHFluidSimulator :=
  { particles := initializeParticles cfg.num_particles cfg.smoothing_radius
    num_particles := cfg.num_particles
    rest_density := cfg.rest_density
    gas_constant := cfg.gas_constant
    viscosity := cfg.viscosity
    gravity := cfg.gravity
    smoothing_radius := cfg.smoothing_radius
    dt := cfg.time_step
    damping := cfg.damping
    boundary_config := bcfg }

/-- Whether SPHFluidSimulator.__init__ runs to completion.  The only
statement of __init__ that can raise is the kernel-constant computation
315.0 / (64.0 * pi * h ** 9), a Python float division that raises
ZeroDivisionError exactly when h = 0.  No other configuration value is
inspected, so construction succeeds for every configuration with
nonzero smoothing radius; no ConfigurationError class exists anywhere in
the repository. -/
def sphInitSucceeds (cfg : FluidConfig) : Prop := cfg.smoothing_radius ≠ 0

/-- SPHFluidSimulator.reset: reruns _initialize_particles with the
stored particle count and smoothing radius. -/
noncomputable def reset (sim : SPHFluidSimulator) : SPHFluidSimulator :=
  { sim with particles := initializeParticles sim.num_particles sim.smoothing_radius }

/-!
The SpatialHashGrid of src/utils/helpers.py, embedded over the
rationals.  The grid dictionary is fully determined by the sequence of
insert calls, modelled as a list of (particle id, position) entries;
each dictionary bucket holds, in insertion order, the ids of the entries
hashing to that cell.
-/

/-- A rational 3-vector for the spatial hash grid component. -/
structure Vec3Q where
  x : ℚ
  y : ℚ
  z : ℚ
deriving DecidableEq

/-- Python int() applied to a rational value: truncation toward zero,
which is the floor for nonnegative values and the ceiling for negative
ones.  SpatialHashGrid._hash_position applies this to position /
cell_size on each axis. -/
def pyInt (q : ℚ) : ℤ := if 0 ≤ q then ⌊q⌋ else ⌈q⌉

/-- SpatialHashGrid._hash_position. -/
def hashPosition (cellSize : ℚ) (p : Vec3Q) : ℤ × ℤ × ℤ :=
  (pyInt (p.x / cellSize), pyInt (p.y / cellSize), pyInt (p.z / cellSize))

/-- The bucket a cell holds after the given insert sequence: the ids of
the inserted entries hashing to that cell, in insertion order (a cell
absent from the dictionary gives the empty bucket). -/
def bucket (cellSize : ℚ) (entries : List (ℕ × Vec3Q)) (c : ℤ × ℤ × ℤ) : List ℕ :=
  (entries.filter (fun e => hashPosition cellSize e.2 = c)).map Prod.fst

/-- Python range(lo, hi) over the integers. -/
def intRange (lo hi : ℤ) : List ℤ :=
  (List.range (hi - lo).toNat).map (fun (t : ℕ) => lo + (t : ℤ))

/-- SpatialHashGrid.query_neighbors: with cell_radius the ceiling of
radius / cell_size, collect the buckets of every cell whose offset from
the query cell is within cell_radius on each axis. -/
def queryNeighbors (cellSize : ℚ) (entries : List (ℕ × Vec3Q))
    (position : Vec3Q) (radius : ℚ) : List ℕ :=
  let k : ℤ := ⌈radius / cellSize⌉
  let c := hashPosition cellSize position
  (intRange (-k) (k + 1)).flatMap (fun dx =>
    (intRange (-k) (k + 1)).flatMap (fun dy =>
      (intRange (-k) (k + 1)).flatMap (fun dz =>
        bucket cellSize entries (c.1 + dx, c.2.1 + dy, c.2.2 + dz))))

/-- Squared Euclidean distance between two rational 3-vectors. -/
def distSq (a b : Vec3Q) : ℚ :=
  (a.x - b.x) ^ 2 + (a.y - b.y) ^ 2 + (a.z - b.z) ^ 2

/-!
Concrete states used by the counterexamples and witnesses below.
-/

/-- A particle pair within interaction range, with unit density and
pressure: used to evaluate the pressure-force contribution. -/
noncomputable def particleP : Particle :=
  { position := ⟨1 / 100, 0, 0⟩, velocity := ⟨0, 0, 0⟩, force := ⟨0, 0, 0⟩
    density := 1, pressure := 1, mass := 1 / 50 }

/-- The neighbor of particleP, at the origin. -/
noncomputable def particleQ : Particle :=
  { position := ⟨0, 0, 0⟩, velocity := ⟨0, 0, 0⟩, force := ⟨0, 0, 0⟩
    density := 1, pressure := 1, mass := 1 / 50 }

/-- A one-particle simulator state with the default configuration
values and a particle resting at the origin. -/
noncomputable def simOne : SPHFluidSimulator :=
  { particles := [Particle.init ⟨0, 0, 0⟩]
    num_particles := 1
    rest_density := 1000
    gas_constant := 2000
    viscosity := 0.5
    gravity := ⟨0, -9.8, 0⟩
    smoothing_radius := 0.05
    dt := 0.016
    damping := 0.95
    boundary_config := BOUNDARY_CONFIG }

/-- A configuration violating every bound the specification claims is
validated, except that its smoothing radius is negative rather than
zero (negative values raise nothing in __init__). -/
noncomputable def invalidFluidConfig : FluidConfig :=
  { num_particles := 1
    particle_mass := -0.02
    rest_density := 1000
    gas_constant := 2000
    viscosity := 0.5
    gravity := ⟨0, -9.8, 0⟩
    smoothing_radius := -0.05
    time_step := 0.016
    damping := -1 }

/-- A boundary configuration with min at or above max on the x axis and
restitution outside the unit interval. -/
noncomputable def invalidBoundaryConfig : BoundaryConfig :=
  { min_bounds := ⟨1, -1, -1⟩
    max_bounds := ⟨-1, 1, 1⟩
    restitution := 7 }

/-- The default configuration with the particle count replaced by 2,
which is not a perfect cube. -/
noncomputable def configTwoParticles : FluidConfig :=
  { FLUID_CONFIG with num_particles := 2 }

/-- A custom configuration whose particle mass differs from the global
FLUID_CONFIG value. -/
noncomputable def configCustomMass : FluidConfig :=
  { FLUID_CONFIG with num_particles := 1, particle_mass := 1 }

/-!
Helper lemmas shared by the claim theorems.
-/

@[simp]
theorem Vec3.add_x (a b : Vec3) : (a + b).x = a.x + b.x := rfl

@[simp]
theorem Vec3.add_y (a b : Vec3) : (a + b).y = a.y + b.y := rfl

@[simp]
theorem Vec3.add_z (a b : Vec3) : (a + b).z = a.z + b.z := rfl

@[simp]
theorem Vec3.sub_x (a b : Vec3) : (a - b).x = a.x - b.x := rfl

@[simp]
theorem Vec3.sub_y (a b : Vec3) : (a - b).y = a.y - b.y := rfl

@[simp]
theorem Vec3.sub_z (a b : Vec3) : (a - b).z = a.z - b.z := rfl

@[simp]
theorem Vec3.neg_x (a : Vec3) : (-a).x = -a.x := rfl

@[simp]
theorem Vec3.neg_y (a : Vec3) : (-a).y = -a.y := rfl

@[simp]
theorem Vec3.neg_z (a : Vec3) : (-a).z = -a.z := rfl

@[simp]
theorem Vec3.smul_x (c : ℝ) (a : Vec3) : (c • a).x = c * a.x := rfl

@[simp]
theorem Vec3.smul_y (c : ℝ) (a : Vec3) : (c • a).y = c * a.y := rfl

@[simp]
theorem Vec3.smul_z (c : ℝ) (a : Vec3) : (c • a).z = c * a.z := rfl

@[simp]
theorem Vec3.sdiv_x (a : Vec3) (r : ℝ) : (Vec3.sdiv a r).x = a.x / r := rfl

@[simp]
theorem Vec3.sdiv_y (a : Vec3) (r : ℝ) : (Vec3.sdiv a r).y = a.y / r := rfl

@[simp]
theorem Vec3.sdiv_z (a : Vec3) (r : ℝ) : (Vec3.sdiv a r).z = a.z / r := rfl

theorem Vec3.dot_self_sub_same (v : Vec3) : Vec3.dot (v - v) (v - v) = 0 := by
  simp [Vec3.dot]

/-- The nonnegative-entry sum of a real list is positive as soon as one
member is positive. -/
theorem list_sum_pos_of_mem :
    ∀ (l : List ℝ), (∀ x ∈ l, 0 ≤ x) → ∀ x ∈ l, 0 < x → 0 < l.sum := by
  intro l
  induction l with
  | nil => intro _ x hx; cases hx
  | cons a t ih =>
    intro hnn x hx hpos
    rw [List.sum_cons]
    rcases List.mem_cons.mp hx with rfl | hxt
    · have ht : 0 ≤ t.sum :=
        List.sum_nonneg fun y hy => hnn y (List.mem_cons_of_mem _ hy)
      linarith
    · have ha : 0 ≤ a := hnn a (List.mem_cons_self a t)
      have ht := ih (fun y hy => hnn y (List.mem_cons_of_mem _ hy)) x hxt hpos
      linarith

theorem poly6Kernel_nonneg (h r2 : ℝ) (hh : 0 < h) : 0 ≤ poly6Kernel h r2 := by
  unfold poly6Kernel
  split
  · exact le_refl 0
  · rename_i hlt
    push_neg at hlt
    have hdiff : 0 < h * h - r2 := by linarith
    have hpi := Real.pi_pos
    positivity

theorem poly6Kernel_zero_pos (h : ℝ) (hh : 0 < h) : 0 < poly6Kernel h 0 := by
  unfold poly6Kernel
  rw [if_neg (by push_neg; positivity), sub_zero]
  have hpi := Real.pi_pos
  positivity

theorem densityContribution_nonneg (h m : ℝ) (pos qpos : Vec3)
    (hh : 0 < h) (hm : 0 ≤ m) : 0 ≤ densityContribution h m pos qpos := by
  unfold densityContribution
  split
  · exact mul_nonneg hm (poly6Kernel_nonneg h _ hh)
  · exact le_refl 0

theorem densityContribution_self_pos (h m : ℝ) (pos : Vec3)
    (hh : 0 < h) (hm : 0 < m) : 0 < densityContribution h m pos pos := by
  unfold densityContribution
  rw [Vec3.dot_self_sub_same]
  rw [if_pos (by positivity)]
  exact mul_pos hm (poly6Kernel_zero_pos h hh)

theorem clampAxis_mem (minb maxb rest pos vel : ℝ) (hle : minb ≤ maxb) :
    minb ≤ (clampAxis minb maxb rest pos vel).1 ∧
      (clampAxis minb maxb rest pos vel).1 ≤ maxb := by
  unfold clampAxis
  split
  · exact ⟨le_refl _, hle⟩
  · split
    · exact ⟨hle, le_refl _⟩
    · rename_i h1 h2
      push_neg at h1 h2
      exact ⟨h1, h2⟩

theorem handleBoundaries_position_mem (bc : BoundaryConfig) (p : Particle)
    (hx : bc.min_bounds.x ≤ bc.max_bounds.x)
    (hy : bc.min_bounds.y ≤ bc.max_bounds.y)
    (hz : bc.min_bounds.z ≤ bc.max_bounds.z) :
    (bc.min_bounds.x ≤ (handleBoundaries bc p).position.x ∧
      (handleBoundaries bc p).position.x ≤ bc.max_bounds.x) ∧
    (bc.min_bounds.y ≤ (handleBoundaries bc p).position.y ∧
      (handleBoundaries bc p).position.y ≤ bc.max_bounds.y) ∧
    (bc.min_bounds.z ≤ (handleBoundaries bc p).position.z ∧
      (handleBoundaries bc p).position.z ≤ bc.max_bounds.z) := by
  unfold handleBoundaries
  exact ⟨clampAxis_mem _ _ _ _ _ hx, clampAxis_mem _ _ _ _ _ hy,
    clampAxis_mem _ _ _ _ _ hz⟩

theorem natCeilCubeRoot_spec (n : ℕ) : n ≤ natCeilCubeRoot n ^ 3 := by
  unfold natCeilCubeRoot
  cases hf : (List.range (n + 1)).find? (fun d => decide (n ≤ d ^ 3)) with
  | none =>
    exfalso
    have hmem : n ∈ List.range (n + 1) := List.mem_range.mpr (Nat.lt_succ_self n)
    have hcontra := List.find?_eq_none.mp hf n hmem
    simp only [decide_eq_true_eq] at hcontra
    exact hcontra (Nat.le_self_pow (by norm_num) n)
  | some d =>
    have hd := List.find?_some hf
    simp only [decide_eq_true_eq] at hd
    simpa using hd

theorem gridPositions_length (d : ℕ) (s : ℝ) : (gridPositions d s).length = d ^ 3 := by
  unfold gridPositions
  simp [Function.comp_def]
  ring

theorem initializeParticles_length (n : ℕ) (h : ℝ) :
    (initializeParticles n h).length = n := by
  unfold initializeParticles
  rw [List.length_map, List.length_take, gridPositions_length]
  exact min_eq_left (natCeilCubeRoot_spec n)

theorem mem_intRange (lo hi x : ℤ) : x ∈ intRange lo hi ↔ lo ≤ x ∧ x < hi := by
  unfold intRange
  constructor
  · intro hx
    obtain ⟨t, ht, hxe⟩ := List.mem_map.mp hx
    have htn := List.mem_range.mp ht
    have hxe2 : lo + (t : ℤ) = x := hxe
    omega
  · rintro ⟨h1, h2⟩
    refine List.mem_map.mpr ⟨(x - lo).toNat, List.mem_range.mpr (by omega), ?_⟩
    show lo + ((x - lo).toNat : ℤ) = x
    omega

theorem mem_bucket (cellSize : ℚ) (entries : List (ℕ × Vec3Q)) (c : ℤ × ℤ × ℤ)
    (id : ℕ) (q : Vec3Q) (hmem : (id, q) ∈ entries)
    (hc : hashPosition cellSize q = c) : id ∈ bucket cellSize entries c := by
  unfold bucket
  rw [List.mem_map]
  exact ⟨(id, q), List.mem_filter.mpr ⟨hmem, by simp [hc]⟩, rfl⟩

/-- Truncation toward zero moves any two points apart by at most the
integer bound dominating their distance. -/
theorem pyInt_sub_le (a b : ℚ) (k : ℤ) (h1 : a - b ≤ (k : ℚ)) (h0 : 0 ≤ k) :
    pyInt a - pyInt b ≤ k := by
  unfold pyInt
  rcases le_or_lt 0 a with ha | ha <;> rcases le_or_lt 0 b with hb | hb
  · rw [if_pos ha, if_pos hb]
    have hfa : (⌊a⌋ : ℚ) ≤ a := Int.floor_le a
    have hfb : b < (⌊b⌋ : ℚ) + 1 := Int.lt_floor_add_one b
    have : ((⌊a⌋ - ⌊b⌋ : ℤ) : ℚ) < (k : ℚ) + 1 := by push_cast; linarith
    have hlt : (⌊a⌋ - ⌊b⌋ : ℤ) < k + 1 := by exact_mod_cast this
    omega
  · rw [if_pos ha, if_neg (not_le.mpr hb)]
    have hfa : (⌊a⌋ : ℚ) ≤ a := Int.floor_le a
    have hcb : b ≤ (⌈b⌉ : ℚ) := Int.le_ceil b
    have : ((⌊a⌋ - ⌈b⌉ : ℤ) : ℚ) ≤ (k : ℚ) := by push_cast; linarith
    exact_mod_cast this
  · rw [if_neg (not_le.mpr ha), if_pos hb]
    have hca : ⌈a⌉ ≤ 0 := Int.ceil_le.mpr (by exact_mod_cast ha.le)
    have hfb : 0 ≤ ⌊b⌋ := Int.floor_nonneg.mpr hb
    omega
  · rw [if_neg (not_le.mpr ha), if_neg (not_le.mpr hb)]
    have hca : (⌈a⌉ : ℚ) < a + 1 := Int.ceil_lt_add_one a
    have hcb : b ≤ (⌈b⌉ : ℚ) := Int.le_ceil b
    have : ((⌈a⌉ - ⌈b⌉ : ℤ) : ℚ) < (k : ℚ) + 1 := by push_cast; linarith
    have hlt : (⌈a⌉ - ⌈b⌉ : ℤ) < k + 1 := by exact_mod_cast this
    omega

theorem pyInt_dist (a b : ℚ) (k : ℤ) (hk : |a - b| ≤ (k : ℚ)) :
    |pyInt a - pyInt b| ≤ k := by
  have h0 : (0 : ℚ) ≤ (k : ℚ) := le_trans (abs_nonneg _) hk
  have h0k : 0 ≤ k := by exact_mod_cast h0
  rcases abs_le.mp hk with ⟨hlo, hhi⟩
  refine abs_le.mpr ⟨?_, pyInt_sub_le a b k hhi h0k⟩
  have := pyInt_sub_le b a k (by linarith) h0k
  omega

/-!
Claim theorems.
-/

/-- C6: for every displacement vector r_vec and distance r, if r is
below the 1e-6 epsilon (in particular r = 0 for coincident particles)
or r is at least h, the spiky pressure gradient returns the zero vector,
so the guarded branch never divides by r. -/
theorem spiky_gradient_zero_guard (h r : ℝ) (rvec : Vec3)
    (hcond : r < 1 / 1000000 ∨ h ≤ r) :
    spikyGradient h rvec r = ⟨0, 0, 0⟩ := by
  unfold spikyGradient
  rw [if_pos hcond.symm]

/-- Witness for C6 at the coincident-particle input r = 0 with the
default smoothing radius. -/
theorem spiky_gradient_zero_guard_witness :
    ((0 : ℝ) < 1 / 1000000 ∨ (0.05 : ℝ) ≤ 0) ∧
      spikyGradient 0.05 ⟨0, 0, 0⟩ 0 = ⟨0, 0, 0⟩ :=
  ⟨Or.inl (by norm_num),
    spiky_gradient_zero_guard 0.05 0 ⟨0, 0, 0⟩ (Or.inl (by norm_num))⟩

/-- C9: an explicit dt argument to update permanently overwrites the
stored time step: updating with some d equals first storing dt = d and
updating without argument, the stored dt afterwards is d, an update
without argument keeps the stored dt, and a subsequent
add_external_force scales its velocity contributions by the overridden
d rather than the configured time step. -/
theorem update_dt_override_persists (sim : SPHFluidSimulator) (d : ℝ)
    (pos force : Vec3) (radius : ℝ) :
    update sim (some d) = update { sim with dt := d } none ∧
    (update sim (some d)).dt = d ∧
    (update sim none).dt = sim.dt ∧
    addExternalForce (update sim (some d)) pos radius force =
      { update sim (some d) with particles :=
          (update sim (some d)).particles.map (applyExternalForce d pos radius force) } :=
  ⟨rfl, rfl, rfl, rfl⟩

/-- C5: after the density stage every particle has strictly positive
density, because the self term of the density sum contributes a
strictly positive mass times the kernel value at zero distance, and all
other contributions are nonnegative (given positive particle masses and
a positive smoothing radius). -/
theorem density_positive_after_stage (sim : SPHFluidSimulator)
    (hh : 0 < sim.smoothing_radius)
    (hm : ∀ p ∈ sim.particles, 0 < p.mass) :
    ∀ p ∈ (computeDensityPressure sim).particles, 0 < p.density := by
  intro p hp
  simp only [computeDensityPressure] at hp
  obtain ⟨q, hq, rfl⟩ := List.mem_map.mp hp
  show 0 < (sim.particles.map (fun r =>
    densityContribution sim.smoothing_radius q.mass q.position r.position)).sum
  refine list_sum_pos_of_mem _ ?_
    (densityContribution sim.smoothing_radius q.mass q.position q.position)
    (List.mem_map_of_mem _ hq) ?_
  · intro x hx
    obtain ⟨r, hr, rfl⟩ := List.mem_map.mp hx
    exact densityContribution_nonneg _ _ _ _ hh (hm q hq).le
  · exact densityContribution_self_pos _ _ _ hh (hm q hq)

/-- Witness for C5 on the concrete one-particle state with the default
mass 0.02 and smoothing radius 0.05. -/
theorem density_positive_after_stage_witness :
    0 < simOne.smoothing_radius ∧ (∀ p ∈ simOne.particles, 0 < p.mass) ∧
      ∀ p ∈ (computeDensityPressure simOne).particles, 0 < p.density := by
  have hh : 0 < simOne.smoothing_radius := by norm_num [simOne]
  have hm : ∀ p ∈ simOne.particles, 0 < p.mass := by
    intro p hp
    simp only [simOne, List.mem_singleton] at hp
    subst hp
    norm_num [Particle.init, FLUID_CONFIG]
  exact ⟨hh, hm, density_positive_after_stage simOne hh hm⟩

/-- C4: after every completed update, each of the three position
components of every particle lies within the configured domain bounds
of its axis (given each axis interval is nonempty, as the configuration
contract requires). -/
theorem update_boundary_containment (sim : SPHFluidSimulator) (dtArg : Option ℝ)
    (hx : sim.boundary_config.min_bounds.x ≤ sim.boundary_config.max_bounds.x)
    (hy : sim.boundary_config.min_bounds.y ≤ sim.boundary_config.max_bounds.y)
    (hz : sim.boundary_config.min_bounds.z ≤ sim.boundary_config.max_bounds.z) :
    ∀ p ∈ (update sim dtArg).particles,
      (sim.boundary_config.min_bounds.x ≤ p.position.x ∧
        p.position.x ≤ sim.boundary_config.max_bounds.x) ∧
      (sim.boundary_config.min_bounds.y ≤ p.position.y ∧
        p.position.y ≤ sim.boundary_config.max_bounds.y) ∧
      (sim.boundary_config.min_bounds.z ≤ p.position.z ∧
        p.position.z ≤ sim.boundary_config.max_bounds.z) := by
  cases dtArg with
  | none =>
    intro p hp
    simp only [update, integrate] at hp
    obtain ⟨q, hq, rfl⟩ := List.mem_map.mp hp
    exact handleBoundaries_position_mem _ _ hx hy hz
  | some d =>
    intro p hp
    simp only [update, integrate] at hp
    obtain ⟨q, hq, rfl⟩ := List.mem_map.mp hp
    exact handleBoundaries_position_mem _ _ hx hy hz

/-- Witness for C4 on the concrete one-particle state with the default
domain bounds. -/
theorem update_boundary_containment_witness :
    simOne.boundary_config.min_bounds.x ≤ simOne.boundary_config.max_bounds.x ∧
    simOne.boundary_config.min_bounds.y ≤ simOne.boundary_config.max_bounds.y ∧
    simOne.boundary_config.min_bounds.z ≤ simOne.boundary_config.max_bounds.z ∧
      ∀ p ∈ (update simOne none).particles,
        (simOne.boundary_config.min_bounds.x ≤ p.position.x ∧
          p.position.x ≤ simOne.boundary_config.max_bounds.x) ∧
        (simOne.boundary_config.min_bounds.y ≤ p.position.y ∧
          p.position.y ≤ simOne.boundary_config.max_bounds.y) ∧
        (simOne.boundary_config.min_bounds.z ≤ p.position.z ∧
          p.position.z ≤ simOne.boundary_config.max_bounds.z) := by
  refine ⟨by norm_num [simOne, BOUNDARY_CONFIG], by norm_num [simOne, BOUNDARY_CONFIG],
    by norm_num [simOne, BOUNDARY_CONFIG], ?_⟩
  exact update_boundary_containment simOne none (by norm_num [simOne, BOUNDARY_CONFIG])
    (by norm_num [simOne, BOUNDARY_CONFIG]) (by norm_num [simOne, BOUNDARY_CONFIG])

/-- C10: every particle created by the constructor takes its mass from
the module-level global FLUID_CONFIG, whatever configuration is passed:
the list of particle masses is the requested count of copies of the
global particle mass, for every configuration. -/
theorem particle_mass_from_global_config (cfg : FluidConfig) (bcfg : BoundaryConfig) :
    (sphInit cfg bcfg).particles.map Particle.mass =
      List.replicate cfg.num_particles FLUID_CONFIG.particle_mass := by
  show (initializeParticles cfg.num_particles cfg.smoothing_radius).map Particle.mass = _
  unfold initializeParticles
  rw [List.map_map]
  have hfun : (Particle.mass ∘ Particle.init) =
      fun _ => FLUID_CONFIG.particle_mass := rfl
  rw [hfun, List.map_const']
  rw [List.length_take, gridPositions_length, min_eq_left (natCeilCubeRoot_spec _)]

/-- C8 amended: construction and reset create exactly the requested
number of particles, also when the count is not a perfect cube: the
grid enumeration stops as soon as the count is reached, and the ceiling
cube root guarantees the grid has at least that many slots. -/
theorem init_particle_count_exact (cfg : FluidConfig) (bcfg : BoundaryConfig)
    (sim : SPHFluidSimulator) :
    (sphInit cfg bcfg).particles.length = cfg.num_particles ∧
      (reset sim).particles.length = sim.num_particles :=
  ⟨initializeParticles_length _ _, initializeParticles_length _ _⟩

/-- Counterexample to C8 as stated: 2 is not a perfect cube, yet the
constructor creates exactly 2 particles, not strictly fewer. -/
theorem particle_count_exact_counterexample :
    (∀ m : ℕ, m ^ 3 ≠ configTwoParticles.num_particles) ∧
      (sphInit configTwoParticles BOUNDARY_CONFIG).particles.length =
        configTwoParticles.num_particles := by
  constructor
  · intro m
    show m ^ 3 ≠ 2
    match m with
    | 0 => decide
    | 1 => decide
    | (m + 2) =>
      have h8 : 2 ^ 3 ≤ (m + 2) ^ 3 := Nat.pow_le_pow_left (by omega) 3
      omega
  · exact initializeParticles_length 2 _

/-- C7: for every insert sequence, query position and radius, the grid
query returns every inserted particle id whose exact distance to the
query position is at most the radius (squared-distance form), given a
positive cell size: the query result is a superset of the true neighbor
set. -/
theorem query_neighbors_superset (cellSize radius : ℚ)
    (entries : List (ℕ × Vec3Q)) (pos q : Vec3Q) (id : ℕ)
    (hcs : 0 < cellSize) (hr : 0 ≤ radius) (hmem : (id, q) ∈ entries)
    (hdist : distSq pos q ≤ radius ^ 2) :
    id ∈ queryNeighbors cellSize entries pos radius := by
  have hax : |pos.x - q.x| ≤ radius := by
    refine abs_le_of_sq_le_sq ?_ hr
    unfold distSq at hdist
    nlinarith [sq_nonneg (pos.y - q.y), sq_nonneg (pos.z - q.z)]
  have hay : |pos.y - q.y| ≤ radius := by
    refine abs_le_of_sq_le_sq ?_ hr
    unfold distSq at hdist
    nlinarith [sq_nonneg (pos.x - q.x), sq_nonneg (pos.z - q.z)]
  have haz : |pos.z - q.z| ≤ radius := by
    refine abs_le_of_sq_le_sq ?_ hr
    unfold distSq at hdist
    nlinarith [sq_nonneg (pos.x - q.x), sq_nonneg (pos.y - q.y)]
  have hcell : ∀ a b : ℚ, |a - b| ≤ radius →
      |pyInt (a / cellSize) - pyInt (b / cellSize)| ≤ ⌈radius / cellSize⌉ := by
    intro a b hab
    apply pyInt_dist
    have habs : |a / cellSize - b / cellSize| = |a - b| / cellSize := by
      rw [div_sub_div_same, abs_div, abs_of_pos hcs]
    rw [habs]
    calc |a - b| / cellSize ≤ radius / cellSize := by gcongr
      _ ≤ (⌈radius / cellSize⌉ : ℚ) := Int.le_ceil _
  have hcx := hcell pos.x q.x hax
  have hcy := hcell pos.y q.y hay
  have hcz := hcell pos.z q.z haz
  rcases abs_le.mp hcx with ⟨hcx1, hcx2⟩
  rcases abs_le.mp hcy with ⟨hcy1, hcy2⟩
  rcases abs_le.mp hcz with ⟨hcz1, hcz2⟩
  unfold queryNeighbors
  rw [List.mem_flatMap]
  refine ⟨pyInt (q.x / cellSize) - pyInt (pos.x / cellSize),
    (mem_intRange _ _ _).mpr (by omega), ?_⟩
  rw [List.mem_flatMap]
  refine ⟨pyInt (q.y / cellSize) - pyInt (pos.y / cellSize),
    (mem_intRange _ _ _).mpr (by omega), ?_⟩
  rw [List.mem_flatMap]
  refine ⟨pyInt (q.z / cellSize) - pyInt (pos.z / cellSize),
    (mem_intRange _ _ _).mpr (by omega), ?_⟩
  refine mem_bucket cellSize entries _ id q hmem ?_
  unfold hashPosition
  simp only [Prod.mk.injEq]
  omega

/-- Witness for C7: one inserted particle at the origin, queried at the
origin with radius zero and unit cell size. -/
theorem query_neighbors_superset_witness :
    (0 : ℚ) < 1 ∧ (0 : ℚ) ≤ 0 ∧
      ((0 : ℕ), (⟨0, 0, 0⟩ : Vec3Q)) ∈ [((0 : ℕ), (⟨0, 0, 0⟩ : Vec3Q))] ∧
      distSq ⟨0, 0, 0⟩ ⟨0, 0, 0⟩ ≤ (0 : ℚ) ^ 2 ∧
      0 ∈ queryNeighbors 1 [((0 : ℕ), ⟨0, 0, 0⟩)] ⟨0, 0, 0⟩ 0 :=
  ⟨by norm_num, le_refl 0, List.mem_singleton.mpr rfl, by norm_num [distSq],
    query_neighbors_superset 1 0 [((0 : ℕ), ⟨0, 0, 0⟩)] ⟨0, 0, 0⟩ ⟨0, 0, 0⟩ 0
      (by norm_num) (le_refl 0) (List.mem_singleton.mpr rfl) (by norm_num [distSq])⟩

/-- Counterexample to C1 as stated: at a concrete in-range particle
pair the accumulated pressure-force term of the code differs from the
formula of the spec, whose extra minus sign in front of the already
negative gradient constant flips the sign of the contribution. -/
theorem pressure_contribution_spec_counterexample :
    pressureContribution (1 / 20) particleP particleQ ≠
      specPressureContribution (1 / 20) particleP particleQ := by
  have hsub : particleP.position - particleQ.position = ⟨1 / 100, 0, 0⟩ := by
    ext <;> simp [particleP, particleQ]
  have hnorm : Vec3.norm (⟨1 / 100, 0, 0⟩ : Vec3) = 1 / 100 := by
    unfold Vec3.norm Vec3.dot
    rw [show ((1 : ℝ) / 100 * (1 / 100) + 0 * 0 + 0 * 0) = (1 / 100) ^ 2 by norm_num]
    exact Real.sqrt_sq (by norm_num)
  unfold pressureContribution specPressureContribution
  rw [hsub, hnorm, if_pos (by norm_num : (1 : ℝ) / 100 < 1 / 20)]
  unfold spikyGradient
  rw [if_neg (by norm_num)]
  intro heq
  have hx := congrArg Vec3.x heq
  simp only [particleP, particleQ, Vec3.smul_x, Vec3.sdiv_x] at hx
  have hpi := Real.pi_pos
  have hs : (-45 / (Real.pi * ((1 : ℝ) / 20) ^ 6) *
      (((1 : ℝ) / 20 - 1 / 100) * ((1 : ℝ) / 20 - 1 / 100))) < 0 := by
    apply mul_neg_of_neg_of_pos
    · apply div_neg_of_neg_of_pos (by norm_num)
      positivity
    · norm_num
  rw [div_self (by norm_num : ((1 : ℝ) / 100) ≠ 0)] at hx
  nlinarith [hx, hs]

/-- C1 amended: the per-neighbor pressure-force term accumulated by the
code is the exact negation of the formula in the spec whenever the two
particles carry equal masses (as all particles do, the mass being a
global constant): the code adds +mass(p) times the pressure term times
the gradient, weighted by the mass of p rather than the neighbor and
with no minus sign in front, the repulsive sign living inside the
gradient constant. -/
theorem pressure_contribution_negation_of_spec (h : ℝ) (p q : Particle)
    (hmass : p.mass = q.mass) :
    pressureContribution h p q = -specPressureContribution h p q := by
  unfold pressureContribution specPressureContribution
  split
  · ext <;>
      simp only [Vec3.smul_x, Vec3.smul_y, Vec3.smul_z, Vec3.neg_x, Vec3.neg_y,
        Vec3.neg_z, hmass] <;>
      ring
  · rename_i hge
    push_neg at hge
    rw [spikyGradient, if_pos (Or.inl hge)]
    ext <;> simp

/-- Witness for the amended C1 at the concrete equal-mass pair. -/
theorem pressure_contribution_negation_of_spec_witness :
    particleP.mass = particleQ.mass ∧
      pressureContribution (1 / 20) particleP particleQ =
        -specPressureContribution (1 / 20) particleP particleQ :=
  ⟨rfl, pressure_contribution_negation_of_spec (1 / 20) particleP particleQ rfl⟩

/-- Counterexample to C2 as stated: calling add_external_force on a
state with one particle at the center of the force region changes that
particle velocity during the call itself; nothing is deferred to the
next update. -/
theorem add_external_force_immediate_counterexample :
    (addExternalForce simOne ⟨0, 0, 0⟩ 1 ⟨1, 0, 0⟩).particles.map Particle.velocity ≠
      simOne.particles.map Particle.velocity := by
  have hpos : (Particle.init ⟨0, 0, 0⟩).position - ⟨0, 0, 0⟩ = ⟨0, 0, 0⟩ := by
    ext <;> simp [Particle.init]
  have hn0 : Vec3.norm ((Particle.init ⟨0, 0, 0⟩).position - ⟨0, 0, 0⟩) = 0 := by
    rw [hpos]
    unfold Vec3.norm Vec3.dot
    norm_num
  intro heq
  have hx := congrArg (fun l => (l.headD ⟨0, 0, 0⟩).x) heq
  simp only [addExternalForce, simOne, List.map_cons, List.map_nil,
    List.headD_cons] at hx
  unfold applyExternalForce at hx
  rw [if_pos (by rw [hn0]; norm_num)] at hx
  rw [hn0] at hx
  simp only [Particle.init, Vec3.add_x, Vec3.smul_x] at hx
  norm_num at hx

/-- C2 amended: add_external_force applies its effect immediately
during the call: each particle strictly inside the radius has the
force, scaled by the linear falloff and the stored time step, added to
its velocity at call time, every particle position is left unchanged,
and nothing is queued for a later update to consume. -/
theorem add_external_force_immediate (sim : SPHFluidSimulator) (pos : Vec3)
    (radius : ℝ) (force : Vec3) :
    (addExternalForce sim pos radius force).particles =
        sim.particles.map (applyExternalForce sim.dt pos radius force) ∧
    (∀ p : Particle, (applyExternalForce sim.dt pos radius force p).position =
        p.position) ∧
    (∀ p : Particle, (applyExternalForce sim.dt pos radius force p).velocity =
        p.velocity + (if Vec3.norm (p.position - pos) < radius then
          ((1 - Vec3.norm (p.position - pos) / radius) * sim.dt) • force
          else ⟨0, 0, 0⟩)) := by
  refine ⟨rfl, ?_, ?_⟩
  · intro p
    unfold applyExternalForce
    split <;> rfl
  · intro p
    unfold applyExternalForce
    split
    · rfl
    · ext <;> simp

/-- Counterexample to C3 as stated: a configuration violating every
bound the spec lists (negative smoothing radius, negative mass, a
domain axis with min above max, negative damping, restitution above 1)
still constructs successfully; no ConfigurationError exists. -/
theorem init_no_validation_counterexample :
    invalidFluidConfig.smoothing_radius ≤ 0 ∧
    invalidFluidConfig.particle_mass ≤ 0 ∧
    invalidBoundaryConfig.max_bounds.x ≤ invalidBoundaryConfig.min_bounds.x ∧
    invalidFluidConfig.damping < 0 ∧
    1 < invalidBoundaryConfig.restitution ∧
    sphInitSucceeds invalidFluidConfig ∧
    (sphInit invalidFluidConfig invalidBoundaryConfig).damping =
      invalidFluidConfig.damping := by
  refine ⟨?_, ?_, ?_, ?_, ?_, ?_, rfl⟩ <;>
    norm_num [invalidFluidConfig, invalidBoundaryConfig, sphInitSucceeds]

/-- C3 amended: construction performs no validation at all.  For every
configuration whose smoothing radius is nonzero, including every
configuration the spec calls invalid, __init__ runs to completion and
stores the values unchanged; only a zero smoothing radius fails, with
an uncaught ZeroDivisionError from the kernel-constant computation, not
a ConfigurationError. -/
theorem init_succeeds_without_validation (cfg : FluidConfig) (bcfg : BoundaryConfig)
    (hnz : cfg.smoothing_radius ≠ 0) :
    sphInitSucceeds cfg ∧
      (sphInit cfg bcfg).damping = cfg.damping ∧
      (sphInit cfg bcfg).smoothing_radius = cfg.smoothing_radius ∧
      (sphInit cfg bcfg).boundary_config = bcfg :=
  ⟨hnz, rfl, rfl, rfl⟩

/-- Witness for the amended C3 at the concrete invalid configuration. -/
theorem init_succeeds_without_validation_witness :
    invalidFluidConfig.smoothing_radius ≠ 0 ∧
      (sphInitSucceeds invalidFluidConfig ∧
        (sphInit invalidFluidConfig invalidBoundaryConfig).damping =
          invalidFluidConfig.damping ∧
        (sphInit invalidFluidConfig invalidBoundaryConfig).smoothing_radius =
          invalidFluidConfig.smoothing_radius ∧
        (sphInit invalidFluidConfig invalidBoundaryConfig).boundary_config =
          invalidBoundaryConfig) :=
  ⟨by norm_num [invalidFluidConfig],
    init_succeeds_without_validation invalidFluidConfig invalidBoundaryConfig
      (by norm_num [invalidFluidConfig])⟩

end ARFluid
